import Mathlib

/-!
Shallow embedding of `src/sign.rs` (roughenough): a multi-step
(init-update-finish) interface for Ed25519 signing and verification,
wrapping a single-shot external primitive (the `ring` crate).

Bytes are modelled as `Nat`, byte buffers (`Vec<u8>`, `&[u8]`) as
`List Nat`.  Capacity hints (`Vec::with_capacity`, `reserve`) are
performance-only and have no observable effect on contents, so they are
not modelled.  The external cryptographic primitive is out of scope of
the repository (the spec treats it as a black box with a call-level
contract), so the wrapper operations are parametrised over it:

* `ringVerify` stands for `ring::signature::verify` and returns the
  primitive's `Result`, embedded as `Except Unit Unit` (`Ok(())` or an
  unspecified error);
* `ringSign` stands for `Ed25519KeyPair::sign` followed by
  `.as_ref().to_vec()`, a pure function from key pair and message to
  signature bytes;
* `public_key_of` stands for `Ed25519KeyPair::public_key_bytes`;
* key pairs themselves are an abstract type parameter `KP`.

A Rust panic (the `.unwrap()` in `Signer::new`) is modelled as `none`:
the constructor aborts and no `Signer` value is produced.
-/

namespace Roughenough

/-- Embedding of `struct Verifier<'a> { pubkey: Input<'a>, buf: Vec<u8> }`:
a stored public key (byte view) and the accumulation buffer. -/
@[ext]
structure Verifier where
  pubkey : List Nat
  buf : List Nat
deriving DecidableEq, Repr

/-- Embedding of `Verifier::new`: stores the public key bytes unvalidated and
starts with an empty buffer (`Vec::with_capacity(256)` is empty). -/
def Verifier.new (pubkey : List Nat) : Verifier :=
  ⟨pubkey, []⟩

/-- Embedding of `Verifier::update`: appends `data` to the buffer
(`reserve` affects capacity only; `extend_from_slice` appends). -/
def Verifier.update (v : Verifier) (data : List Nat) : Verifier :=
  ⟨v.pubkey, v.buf ++ data⟩

/-- Embedding of `Verifier::verify`: delegates to
`ring::signature::verify(&ED25519, pubkey, buf, expected_sig)` and maps
`Ok(_)` to `true` and every other outcome to `false`. -/
def Verifier.verify (ringVerify : List Nat → List Nat → List Nat → Except Unit Unit)
    (v : Verifier) (expected_sig : List Nat) : Bool :=
  match ringVerify v.pubkey v.buf expected_sig with
  | Except.ok _ => true
  | Except.error _ => false

/-- The transition of the `Verifier` state machine at a `verify` call: the
Rust method takes `&self` (an immutable borrow), so the call reads the state
and leaves it as it was; the post-state of the call is the receiver itself. -/
def Verifier.verifyCall (ringVerify : List Nat → List Nat → List Nat → Except Unit Unit)
    (v : Verifier) (expected_sig : List Nat) : Bool × Verifier :=
  (v.verify ringVerify expected_sig, v)

/-- A sequence of `Verifier::update` calls, in order. -/
def Verifier.updates (v : Verifier) (chunks : List (List Nat)) : Verifier :=
  chunks.foldl Verifier.update v

/-- Embedding of `struct Signer { key_pair: Ed25519KeyPair, buf: Vec<u8> }`
over an abstract key-pair type `KP`. -/
@[ext]
structure Signer (KP : Type) where
  key_pair : KP
  buf : List Nat
deriving DecidableEq, Repr

/-- Embedding of `Signer::new`: derives a key pair from the seed via
`Ed25519KeyPair::from_seed_unchecked(seed).unwrap()` and starts with an
empty buffer.  The derivation is the parameter `from_seed`; its error case
hits the `.unwrap()`, i.e. the constructor panics, modelled as `none`. -/
def Signer.new {KP : Type} (from_seed : List Nat → Option KP) (seed : List Nat) :
    Option (Signer KP) :=
  (from_seed seed).map (fun kp => ⟨kp, []⟩)

/-- Embedding of `Signer::update`: appends `data` to the buffer, exactly as
`Verifier::update` does. -/
def Signer.update {KP : Type} (s : Signer KP) (data : List Nat) : Signer KP :=
  ⟨s.key_pair, s.buf ++ data⟩

/-- Embedding of `Signer::sign`: computes the signature of the buffer
contents with the key pair, then clears the buffer; returns the signature
bytes together with the post-state. -/
def Signer.sign {KP : Type} (ringSign : KP → List Nat → List Nat) (s : Signer KP) :
    List Nat × Signer KP :=
  (ringSign s.key_pair s.buf, ⟨s.key_pair, []⟩)

/-- Embedding of `Signer::public_key_bytes`: returns the public half of the
key pair via the primitive accessor. -/
def Signer.public_key_bytes {KP : Type} (public_key_of : KP → List Nat)
    (s : Signer KP) : List Nat :=
  public_key_of s.key_pair

/-- A sequence of `Signer::update` calls, in order. -/
def Signer.updates {KP : Type} (s : Signer KP) (chunks : List (List Nat)) : Signer KP :=
  chunks.foldl Signer.update s

/-- Modelled from the spec: the external primitive's unchecked key-pair
derivation (`derive_keypair(seed: 32 bytes) -> KeyPair | Error`, ring's
`Ed25519KeyPair::from_seed_unchecked`), which is not part of this
repository.  It requires exactly a 32-byte seed and performs no further
validation; the derived key pair is represented abstractly by the seed it
was derived from. -/
def ringFromSeedUnchecked (seed : List Nat) : Option (List Nat) :=
  if seed.length = 32 then some seed else none

/-! ## Helper lemmas -/

theorem Verifier.updates_buf (v : Verifier) (chunks : List (List Nat)) :
    (v.updates chunks).buf = v.buf ++ chunks.flatten := by
  induction chunks generalizing v with
  | nil => simp [Verifier.updates]
  | cons d ds ih =>
      simp only [Verifier.updates, List.foldl_cons, List.flatten_cons]
      rw [show List.foldl Verifier.update (v.update d) ds = (v.update d).updates ds from rfl]
      rw [ih]
      simp [Verifier.update, List.append_assoc]

theorem Verifier.updates_pubkey (v : Verifier) (chunks : List (List Nat)) :
    (v.updates chunks).pubkey = v.pubkey := by
  induction chunks generalizing v with
  | nil => rfl
  | cons d ds ih =>
      simp only [Verifier.updates, List.foldl_cons]
      exact ih (v.update d)

theorem Signer.updates_buf_concat {KP : Type} (s : Signer KP) (chunks : List (List Nat)) :
    (s.updates chunks).buf = s.buf ++ chunks.flatten := by
  induction chunks generalizing s with
  | nil => simp [Signer.updates]
  | cons d ds ih =>
      simp only [Signer.updates, List.foldl_cons, List.flatten_cons]
      rw [show List.foldl Signer.update (s.update d) ds = (s.update d).updates ds from rfl]
      rw [ih]
      simp [Signer.update, List.append_assoc]

theorem Signer.updates_key_pair {KP : Type} (s : Signer KP) (chunks : List (List Nat)) :
    (s.updates chunks).key_pair = s.key_pair := by
  induction chunks generalizing s with
  | nil => rfl
  | cons d ds ih =>
      simp only [Signer.updates, List.foldl_cons]
      exact ih (s.update d)

theorem Signer.new_eq {KP : Type} (from_seed : List Nat → Option KP) (seed : List Nat)
    (s : Signer KP) (h : Signer.new from_seed seed = some s) :
    from_seed seed = some s.key_pair ∧ s.buf = [] := by
  unfold Signer.new at h
  cases hfs : from_seed seed with
  | none => rw [hfs] at h; simp [Option.map] at h
  | some kp =>
      rw [hfs] at h
      simp [Option.map] at h
      refine ⟨?_, ?_⟩
      · rw [← h]
      · rw [← h]

/-! ## Claims -/

/-- Claim C1: for every Verifier and every Signer, after any sequence of
update calls the accumulation buffer contains exactly the concatenation, in
call order, of all byte sequences passed to update since construction (for
Verifier) or since the last sign call (for Signer), and the buffer is empty
at construction. -/
theorem claim_C1_buffer_concat {KP : Type} (pk : List Nat) (chunks : List (List Nat))
    (ringSign : KP → List Nat → List Nat) (s0 : Signer KP)
    (from_seed : List Nat → Option KP) (seed : List Nat) (s : Signer KP)
    (h : Signer.new from_seed seed = some s) :
    (Verifier.new pk).buf = [] ∧
    ((Verifier.new pk).updates chunks).buf = chunks.flatten ∧
    ((s0.sign ringSign).2.updates chunks).buf = chunks.flatten ∧
    s.buf = [] ∧
    (s.updates chunks).buf = chunks.flatten := by
  have hb := (Signer.new_eq from_seed seed s h).2
  refine ⟨rfl, ?_, ?_, hb, ?_⟩
  · rw [Verifier.updates_buf]; rfl
  · rw [Signer.updates_buf_concat]; rfl
  · rw [Signer.updates_buf_concat, hb]; rfl

/-- Witness for C1 at concrete inputs. -/
theorem claim_C1_buffer_concat_witness :
    ((Verifier.new [5]).updates [[1], [2, 3]]).buf = [[1], [2, 3]].flatten :=
  (claim_C1_buffer_concat [5] [[1], [2, 3]] (fun kp m => kp ++ m)
    (⟨[1, 2], [3]⟩ : Signer (List Nat)) ringFromSeedUnchecked (List.replicate 32 0)
    ⟨List.replicate 32 0, []⟩ (by decide)).2.1

/-- Claim C2: `sign` clears the accumulation buffer after computing the
signature, so a second `sign` with no intervening update produces the
signature of the empty message, which equals the signature a freshly
constructed Signer from the same seed produces for the empty message. -/
theorem claim_C2_sign_resets {KP : Type} (from_seed : List Nat → Option KP)
    (ringSign : KP → List Nat → List Nat) (seed M : List Nat) (s fresh : Signer KP)
    (h : Signer.new from_seed seed = some s)
    (hf : Signer.new from_seed seed = some fresh) :
    ((s.update M).sign ringSign).2.buf = [] ∧
    (((s.update M).sign ringSign).2.sign ringSign).1 = ringSign s.key_pair [] ∧
    (((s.update M).sign ringSign).2.sign ringSign).1 = (fresh.sign ringSign).1 := by
  obtain ⟨hk, _⟩ := Signer.new_eq from_seed seed s h
  obtain ⟨hk2, hb2⟩ := Signer.new_eq from_seed seed fresh hf
  have hkey : s.key_pair = fresh.key_pair := Option.some.inj (hk.symm.trans hk2)
  refine ⟨rfl, rfl, ?_⟩
  show ringSign s.key_pair [] = ringSign fresh.key_pair fresh.buf
  rw [hkey, hb2]

/-- Witness for C2 at concrete inputs. -/
theorem claim_C2_sign_resets_witness :
    ((Signer.update (⟨[7], []⟩ : Signer (List Nat)) [1, 2]).sign
      (fun kp m => kp ++ m)).2.buf = [] :=
  (claim_C2_sign_resets (fun _ => some [7]) (fun kp m => kp ++ m) [] [1, 2]
    ⟨[7], []⟩ ⟨[7], []⟩ rfl rfl).1

/-- Claim C3: `verify` is a pure read: the state after the call (its buffer
and stored public key) is the state before it, and two consecutive `verify`
calls with the same signature argument and no intervening update return the
same boolean. -/
theorem claim_C3_verify_pure_read
    (ringVerify : List Nat → List Nat → List Nat → Except Unit Unit)
    (v : Verifier) (sig : List Nat) :
    (v.verifyCall ringVerify sig).2.buf = v.buf ∧
    (v.verifyCall ringVerify sig).2.pubkey = v.pubkey ∧
    ((v.verifyCall ringVerify sig).2.verifyCall ringVerify sig).1 =
      (v.verifyCall ringVerify sig).1 :=
  ⟨rfl, rfl, rfl⟩

/-- Claim C4: for every message `M` and every partition of `M` into chunks
whose concatenation is `M`, accumulating the chunks in order and then calling
the terminal operation (`sign` or `verify`) yields a result identical to
accumulating `M` in a single call and then calling the terminal operation. -/
theorem claim_C4_incremental {KP : Type}
    (ringVerify : List Nat → List Nat → List Nat → Except Unit Unit)
    (ringSign : KP → List Nat → List Nat) (v : Verifier) (s : Signer KP)
    (M sig : List Nat) (chunks : List (List Nat)) (h : chunks.flatten = M) :
    (v.updates chunks).verify ringVerify sig = (v.update M).verify ringVerify sig ∧
    (s.updates chunks).sign ringSign = (s.update M).sign ringSign := by
  have hv : v.updates chunks = v.update M := by
    refine Verifier.ext ?_ ?_
    · rw [Verifier.updates_pubkey]; rfl
    · rw [Verifier.updates_buf, h]; rfl
  have hs : s.updates chunks = s.update M := by
    refine Signer.ext ?_ ?_
    · rw [Signer.updates_key_pair]; rfl
    · rw [Signer.updates_buf_concat, h]; rfl
  rw [hv, hs]
  exact ⟨rfl, rfl⟩

/-- Witness for C4 at concrete inputs. -/
theorem claim_C4_incremental_witness :
    ((Verifier.new [9]).updates [[1], [2, 3]]).verify (fun _ _ _ => Except.error ()) [4] =
      ((Verifier.new [9]).update [1, 2, 3]).verify (fun _ _ _ => Except.error ()) [4] :=
  (claim_C4_incremental (fun _ _ _ => Except.error ()) (fun kp m => kp ++ m)
    (Verifier.new [9]) (⟨[7], []⟩ : Signer (List Nat)) [1, 2, 3] [4]
    [[1], [2, 3]] rfl).1

/-- Claim C5: given that the external primitive accepts its own signatures
(spec section 8 round-trip contract), constructing a Signer from a seed,
accumulating `M` and signing, then constructing a Verifier from that Signer's
`public_key_bytes`, accumulating `M` and verifying the produced signature,
returns `true`. -/
theorem claim_C5_round_trip {KP : Type} (from_seed : List Nat → Option KP)
    (ringSign : KP → List Nat → List Nat) (public_key_of : KP → List Nat)
    (ringVerify : List Nat → List Nat → List Nat → Except Unit Unit)
    (hprim : ∀ kp m, ringVerify (public_key_of kp) m (ringSign kp m) = Except.ok ())
    (seed M : List Nat) (s : Signer KP) (h : Signer.new from_seed seed = some s) :
    ((Verifier.new ((s.update M).public_key_bytes public_key_of)).update M).verify
      ringVerify ((s.update M).sign ringSign).1 = true := by
  obtain ⟨_, hb⟩ := Signer.new_eq from_seed seed s h
  simp [Verifier.new, Verifier.update, Verifier.verify, Signer.update, Signer.sign,
    Signer.public_key_bytes, hb, hprim]

/-- Witness for C5 at a concrete primitive satisfying the round-trip
contract. -/
theorem claim_C5_round_trip_witness :
    ((Verifier.new ((Signer.update (⟨[7], []⟩ : Signer (List Nat)) [1, 2]).public_key_bytes
      (fun kp => kp))).update [1, 2]).verify
      (fun pk m sig => if sig = pk ++ m then Except.ok () else Except.error ())
      ((Signer.update (⟨[7], []⟩ : Signer (List Nat)) [1, 2]).sign
        (fun kp m => kp ++ m)).1 = true :=
  claim_C5_round_trip (fun _ => some [7]) (fun kp m => kp ++ m) (fun kp => kp)
    (fun pk m sig => if sig = pk ++ m then Except.ok () else Except.error ())
    (fun kp m => by simp) [] [1, 2] ⟨[7], []⟩ rfl

/-- Claim C6: `verify` always returns a boolean: `true` exactly when the
underlying primitive accepts (public key, buffer contents, signature), and
every error outcome of the primitive — whatever its kind — collapses to
`false`. -/
theorem claim_C6_verify_boolean
    (ringVerify : List Nat → List Nat → List Nat → Except Unit Unit)
    (v : Verifier) (sig : List Nat) :
    (v.verify ringVerify sig = true ↔ ringVerify v.pubkey v.buf sig = Except.ok ()) ∧
    (v.verify ringVerify sig = false ↔
      ∃ e, ringVerify v.pubkey v.buf sig = Except.error e) := by
  cases hr : ringVerify v.pubkey v.buf sig with
  | ok u => cases u; simp [Verifier.verify, hr]
  | error e => cases e; simp [Verifier.verify, hr]

/-- Claim C7: Signer construction aborts (the `.unwrap()` panics, so no
Signer value is produced) whenever the seed is not the 32-byte length the
primitive requires; for every valid seed it yields a Signer with the derived
key pair and an empty buffer. -/
theorem claim_C7_construction (seed : List Nat) :
    (seed.length ≠ 32 → Signer.new ringFromSeedUnchecked seed = none) ∧
    (seed.length = 32 →
      Signer.new ringFromSeedUnchecked seed = some ⟨seed, []⟩) := by
  constructor
  · intro h
    simp [Signer.new, ringFromSeedUnchecked, h]
  · intro h
    simp [Signer.new, ringFromSeedUnchecked, h]

/-- Witness for C7: a 32-byte seed constructs, a 1-byte seed aborts. -/
theorem claim_C7_construction_witness :
    Signer.new ringFromSeedUnchecked (List.replicate 32 0) =
      some ⟨List.replicate 32 0, []⟩ ∧
    Signer.new ringFromSeedUnchecked [1] = none :=
  ⟨(claim_C7_construction (List.replicate 32 0)).2 (by decide),
   (claim_C7_construction [1]).1 (by decide)⟩

/-- Claim C8: Verifier construction never fails (the embedding of
`Verifier::new` is a total function into `Verifier`, mirroring the Rust
return type `Self` with no fallible path): for every byte sequence supplied
as the public key, including wrong-length ones, it stores the key bytes
unvalidated and initializes an empty accumulation buffer. -/
theorem claim_C8_verifier_new_total (pk : List Nat) :
    (Verifier.new pk).pubkey = pk ∧ (Verifier.new pk).buf = [] :=
  ⟨rfl, rfl⟩

/-- Claim C9: every operation is deterministic: two runs of `sign`, `verify`
or `update` from equal instance states with equal arguments produce identical
outputs and identical resulting instance states. -/
theorem claim_C9_deterministic {KP : Type} (ringSign : KP → List Nat → List Nat)
    (ringVerify : List Nat → List Nat → List Nat → Except Unit Unit)
    (v1 v2 : Verifier) (s1 s2 : Signer KP) (d1 d2 g1 g2 : List Nat)
    (hv : v1 = v2) (hs : s1 = s2) (hd : d1 = d2) (hg : g1 = g2) :
    s1.sign ringSign = s2.sign ringSign ∧
    v1.verifyCall ringVerify g1 = v2.verifyCall ringVerify g2 ∧
    v1.update d1 = v2.update d2 ∧
    s1.update d1 = s2.update d2 := by
  subst hv; subst hs; subst hd; subst hg
  exact ⟨rfl, rfl, rfl, rfl⟩

/-- Witness for C9 at concrete inputs. -/
theorem claim_C9_deterministic_witness :
    Signer.sign (fun kp m => kp ++ m) (⟨[7], [1]⟩ : Signer (List Nat)) =
      Signer.sign (fun kp m => kp ++ m) ⟨[7], [1]⟩ :=
  (claim_C9_deterministic (fun kp m => kp ++ m) (fun _ _ _ => Except.error ())
    (Verifier.new [1]) (Verifier.new [1]) ⟨[7], [1]⟩ ⟨[7], [1]⟩ [2] [2] [3] [3]
    rfl rfl rfl rfl).1

/-- Claim C10: `Signer::new` performs no validation beyond what the
primitive's unchecked-from-seed derivation requires: a Signer is produced
exactly when the seed is 32 bytes; any other length leaves no constructed
value (the `.unwrap()` panics rather than returning an error value). -/
theorem claim_C10_unchecked_seed (seed : List Nat) :
    (Signer.new ringFromSeedUnchecked seed).isSome = decide (seed.length = 32) := by
  by_cases h : seed.length = 32 <;>
    simp [Signer.new, ringFromSeedUnchecked, h]

end Roughenough
